import Mathlib

/-!
Shallow embedding of the office-tracker core (calc.py, db.py, and the
vacation-range flow of app.py), together with theorems settling the
spec claims about it.

Modelling conventions:
* Python `date` objects become `PyDate` (year, month, day) with the
  proleptic-Gregorian ordinal of `date.toordinal()`, so `weekday()`
  (Monday = 0) and date ordering/subtraction are exact.
* Python dicts that are always read through `.get(key, default)` become
  structures whose fields carry those defaults (`Settings`, `DayRecord`).
* Python floats become `ℚ`.  Every numeric claim checked here evaluates
  the arithmetic at inputs where IEEE-754 doubles and exact rationals
  agree (0.6 * 21 is the double closest to 12.6, whose repr is "12.6",
  and 0 * n is exact), so the `ℚ` model is faithful on those inputs.
* JSON documents become the `Json` inductive; `json.dumps`/`json.loads`
  round-trip the values appearing here unchanged, so the codec is
  modelled directly on `Json` values.
-/

namespace OfficeTracker

/-- A calendar date, mirroring Python's `datetime.date` triple. -/
structure PyDate where
  year : Nat
  month : Nat
  day : Nat
deriving DecidableEq, Repr

/-- Gregorian leap-year test, as in Python's `calendar.isleap`. -/
def isLeap (y : Nat) : Bool :=
  (y % 4 == 0 && y % 100 != 0) || (y % 400 == 0)

/-- Length of a month in the proleptic Gregorian calendar. -/
def daysInMonth (y m : Nat) : Nat :=
  if m = 2 then (if isLeap y then 29 else 28)
  else if m = 4 ∨ m = 6 ∨ m = 9 ∨ m = 11 then 30
  else 31

/-- Days in year `y` strictly before month `m`. -/
def daysBeforeMonth (y m : Nat) : Nat :=
  (List.range (m - 1)).foldl (fun acc i => acc + daysInMonth y (i + 1)) 0

/-- `date.toordinal()`: day 1 is 0001-01-01 in the proleptic Gregorian
calendar. -/
def toOrdinal (d : PyDate) : Nat :=
  365 * (d.year - 1) + (d.year - 1) / 4 - (d.year - 1) / 100 + (d.year - 1) / 400
    + daysBeforeMonth d.year d.month + d.day

/-- `date.weekday()`: Monday = 0 .. Sunday = 6. -/
def weekdayNum (d : PyDate) : Nat :=
  (toOrdinal d + 6) % 7

/-- `date.strftime('%a').upper()`: the three-letter weekday token. -/
def weekdayToken (d : PyDate) : String :=
  match weekdayNum d with
  | 0 => "MON" | 1 => "TUE" | 2 => "WED" | 3 => "THU"
  | 4 => "FRI" | 5 => "SAT" | _ => "SUN"

/-- A date the Python `date` constructor would accept (and that
`isoformat` prints with a four-digit year). -/
def ValidDate (d : PyDate) : Prop :=
  1 ≤ d.year ∧ d.year ≤ 9999 ∧ 1 ≤ d.month ∧ d.month ≤ 12 ∧
    1 ≤ d.day ∧ d.day ≤ daysInMonth d.year d.month

instance (d : PyDate) : Decidable (ValidDate d) := by
  unfold ValidDate; infer_instance

/-- The user settings dictionary.  Field defaults are exactly the
defaults used by every `settings.get(key, default)` read in calc.py, so
a dict missing a key is the structure with that field at its default. -/
structure Settings where
  required_percent : ℚ := 3/5
  rounding_mode : String := "ceil"
  credit_weekdays : List String := ["TUE", "WED", "THU"]
  monfri_holiday_treatment : String := "neutral"
  user_id : String := "rachel"
  country : String := "UnitedStates"
  state : String := ""
  timezone : String := "America/Los_Angeles"
deriving Repr

/-- calc.credited_holiday: credited-holiday policy. -/
def credited_holiday (holiday_date : PyDate) (settings : Settings) : Bool :=
  let weekday := weekdayToken holiday_date
  if settings.credit_weekdays.contains weekday then
    true
  else if weekday = "MON" ∨ weekday = "FRI" then
    settings.monfri_holiday_treatment == "credit"
  else
    false

/-- calc.COUNTS_AS_OFFICE: statuses that count as office attendance. -/
def COUNTS_AS_OFFICE : List String :=
  ["IN_OFFICE", "VACATION", "BIOHUB", "TRAINING", "OTHER_HOLIDAY"]

/-- A day record as consumed by compute_summary.  `status` and
`is_holiday` carry the `day.get(...)` defaults; `holiday_name` and
`notes` carry the serializer's `day.get(...)` defaults, so an absent
key is represented by the default value. -/
structure DayRecord where
  date : PyDate
  status : String := "NONE"
  is_holiday : Bool := false
  holiday_name : String := ""
  notes : String := ""
deriving Repr

/-- `status_counts[status] = status_counts.get(status, 0) + 1` on an
insertion-ordered association list, as a Python dict behaves. -/
def bumpCount : List (String × Nat) → String → List (String × Nat)
  | [], s => [(s, 1)]
  | (k, v) :: rest, s =>
      if k = s then (k, v + 1) :: rest else (k, v) :: bumpCount rest s

/-- Accumulator of compute_summary's per-day loop. -/
structure LoopState where
  workdays : Nat
  numerator : Nat
  status_counts : List (String × Nat)
  credited_holidays : Nat
deriving DecidableEq, Repr

/-- One iteration of compute_summary's loop over `days`.  On a weekday,
`daily_credit` is 1 if the status counts as office; the holiday branch
then overwrites it with 1 and (its inner `if daily_credit:` being
vacuously true after that assignment) increments `credited_holidays`.
On a weekend only the status check applies. -/
def summaryStep (settings : Settings) (st : LoopState) (day : DayRecord) : LoopState :=
  let status := day.status
  let counts := bumpCount st.status_counts status
  if weekdayNum day.date < 5 then
    let daily_credit : Nat := if COUNTS_AS_OFFICE.contains status then 1 else 0
    if day.is_holiday && credited_holiday day.date settings then
      { workdays := st.workdays + 1
        numerator := st.numerator + 1
        status_counts := counts
        credited_holidays := st.credited_holidays + 1 }
    else
      { workdays := st.workdays + 1
        numerator := st.numerator + daily_credit
        status_counts := counts
        credited_holidays := st.credited_holidays }
  else
    { workdays := st.workdays
      numerator := st.numerator + (if COUNTS_AS_OFFICE.contains status then 1 else 0)
      status_counts := counts
      credited_holidays := st.credited_holidays }

/-- The loop of compute_summary, folded over the day records. -/
def summaryLoop (days : List DayRecord) (settings : Settings) : LoopState :=
  days.foldl (summaryStep settings) ⟨0, 0, [], 0⟩

/-- The numerator contribution of a single day record, read off the
branches of `summaryStep`. -/
def dayContrib (settings : Settings) (day : DayRecord) : Nat :=
  if weekdayNum day.date < 5 then
    if day.is_holiday && credited_holiday day.date settings then 1
    else if COUNTS_AS_OFFICE.contains day.status then 1 else 0
  else
    if COUNTS_AS_OFFICE.contains day.status then 1 else 0

/-- `int(Decimal(str(x)).quantize(Decimal('1'), rounding=ROUND_HALF_UP))`:
round half away from zero at the ones place. -/
def roundHalfUp (q : ℚ) : Int :=
  if 0 ≤ q then ⌊q + 1/2⌋ else -⌊-q + 1/2⌋

/-- The summary returned by compute_summary. -/
structure Summary where
  workdays : Nat
  denominator : Nat
  numerator : Nat
  required_days : Int
  balance : Int
  percent_achieved : ℚ
  status_counts : List (String × Nat)
  credited_holidays : Nat
deriving Repr

/-- calc.compute_summary: the attendance accounting engine. -/
def compute_summary (days : List DayRecord) (settings : Settings) : Summary :=
  let st := summaryLoop days settings
  let denominator := st.workdays
  let required_percent := settings.required_percent
  let rounding_mode := settings.rounding_mode
  if 0 < denominator then
    let required_exact : ℚ := required_percent * denominator
    let required_days : Int :=
      if rounding_mode = "ceil" then ⌈required_exact⌉
      else if rounding_mode = "floor" then ⌊required_exact⌋
      else roundHalfUp required_exact
    let percent_achieved : ℚ := ((st.numerator : ℚ) / (denominator : ℚ)) * 100
    { workdays := st.workdays
      denominator := denominator
      numerator := st.numerator
      required_days := required_days
      balance := (st.numerator : Int) - required_days
      percent_achieved := percent_achieved
      status_counts := st.status_counts
      credited_holidays := st.credited_holidays }
  else
    { workdays := st.workdays
      denominator := denominator
      numerator := st.numerator
      required_days := 0
      balance := (st.numerator : Int) - 0
      percent_achieved := 0
      status_counts := st.status_counts
      credited_holidays := st.credited_holidays }

/-- calc.validate_date_range: start ≤ end and span at most 365 days. -/
def validate_date_range (start_date end_date : PyDate) : Bool :=
  if toOrdinal end_date < toOrdinal start_date then false
  else if 365 < toOrdinal end_date - toOrdinal start_date then false
  else true

/-! ### ISO 8601 calendar dates (`date.isoformat` / `date.fromisoformat`) -/

/-- The decimal digit character for `n % 10`. -/
def digitChar0 : Nat → Char
  | 0 => '0' | 1 => '1' | 2 => '2' | 3 => '3' | 4 => '4'
  | 5 => '5' | 6 => '6' | 7 => '7' | 8 => '8' | _ => '9'

/-- The character for the decimal digit `n % 10`. -/
def digitChar (n : Nat) : Char := digitChar0 (n % 10)

/-- Numeric value of a decimal digit character, if it is one. -/
def digitVal (c : Char) : Option Nat :=
  if 48 ≤ c.toNat ∧ c.toNat ≤ 57 then some (c.toNat - 48) else none

/-- Four decimal digits, zero padded (years print this way for 1..9999). -/
def pad4 (n : Nat) : List Char :=
  [digitChar (n / 1000), digitChar (n / 100), digitChar (n / 10), digitChar n]

/-- Two decimal digits, zero padded. -/
def pad2 (n : Nat) : List Char :=
  [digitChar (n / 10), digitChar n]

/-- `date.isoformat()`: the string "YYYY-MM-DD". -/
def isoformat (d : PyDate) : String :=
  ⟨pad4 d.year ++ '-' :: pad2 d.month ++ '-' :: pad2 d.day⟩

/-- `date.fromisoformat`: parse "YYYY-MM-DD" (the canonical form the
serializer emits) and validate it as a real calendar date, as the
`date(year, month, day)` constructor does. -/
def fromisoformat (s : String) : Option PyDate :=
  match s.data with
  | [y1, y2, y3, y4, h1, m1, m2, h2, d1, d2] =>
    if h1 = '-' ∧ h2 = '-' then do
      let a ← digitVal y1
      let b ← digitVal y2
      let c ← digitVal y3
      let d ← digitVal y4
      let e ← digitVal m1
      let f ← digitVal m2
      let g ← digitVal d1
      let h ← digitVal d2
      let year := 1000 * a + 100 * b + 10 * c + d
      let month := 10 * e + f
      let day := 10 * g + h
      let pd : PyDate := ⟨year, month, day⟩
      if ValidDate pd then some pd else none
    else none
  | _ => none

/-! ### JSON documents and the import/export codec -/

/-- A JSON value, the image of `json.loads`. -/
inductive Json where
  | null : Json
  | bool : Bool → Json
  | num : ℚ → Json
  | str : String → Json
  | arr : List Json → Json
  | obj : List (String × Json) → Json

/-- `dict.get(key, default)` on a JSON object (the fields of an object
are an insertion-ordered association list with unique keys). -/
def Json.getD (j : Json) (key : String) (default : Json) : Json :=
  match j with
  | .obj fields =>
    match fields.lookup key with
    | some v => v
    | none => default
  | _ => default

/-- `dict[key]` on a JSON object: `none` models a raised `KeyError`. -/
def Json.get? (j : Json) (key : String) : Option Json :=
  match j with
  | .obj fields => fields.lookup key
  | _ => none

/-- calc.serialize_month's per-day record: `date` as ISO string, the
`.get` defaults for `holiday_name` and `notes` being the structure's
field defaults. -/
def serializeDay (day : DayRecord) : Json :=
  .obj [("date", .str (isoformat day.date)),
        ("status", .str day.status),
        ("is_holiday", .bool day.is_holiday),
        ("holiday_name", .str day.holiday_name),
        ("notes", .str day.notes)]

/-- The settings sub-object of calc.serialize_month, field for field. -/
def serializeSettings (settings : Settings) : Json :=
  .obj [("required_percent", .num settings.required_percent),
        ("rounding_mode", .str settings.rounding_mode),
        ("credit_weekdays", .arr (settings.credit_weekdays.map .str)),
        ("monfri_holiday_treatment", .str settings.monfri_holiday_treatment),
        ("country", .str settings.country),
        ("state", .str settings.state),
        ("timezone", .str settings.timezone)]

/-- calc.serialize_month: the stable export document.  `summary` is the
summary dict the caller passes, embedded verbatim, so it is taken here
as an arbitrary JSON value. -/
def serialize_month (days : List DayRecord) (settings : Settings) (summary : Json) : Json :=
  .obj [("version", .str "1.2"),
        ("user_id", .str settings.user_id),
        ("month", .obj
          [("year", match days with
                    | [] => .null
                    | day :: _ => .num day.date.year),
           ("month", match days with
                     | [] => .null
                     | day :: _ => .num day.date.month)]),
        ("settings", serializeSettings settings),
        ("summary", summary),
        ("days", .arr (days.map serializeDay))]

/-- A day entry after import: the `date` field replaced by the parsed
date value, the remaining fields of the day object untouched. -/
structure ParsedDay where
  date : PyDate
  fields : List (String × Json)

/-- The dictionary deserialize_month returns. -/
structure DeserResult where
  days : List ParsedDay
  settings : Json
  summary : Json
  version : Json

/-- The loop body of calc.deserialize_month:
`day['date'] = date.fromisoformat(day['date'])`.  A missing `date` key
(KeyError) or an unparsable date string (ValueError) is caught by the
function's except-clause and re-raised as the format error; a day entry
that is not an object, or whose `date` is not a string, would raise an
uncaught TypeError in Python and is modelled as an error here too. -/
def parseDay (j : Json) : Except String ParsedDay :=
  match j with
  | .obj fields =>
    match fields.lookup "date" with
    | none => .error "Invalid JSON format: KeyError: date"
    | some (.str s) =>
      match fromisoformat s with
      | some d => .ok ⟨d, fields.filter (fun kv => kv.1 ≠ "date")⟩
      | none => .error ("Invalid JSON format: Invalid isoformat string: " ++ s)
    | some _ => .error "TypeError: fromisoformat: argument must be str"
  | _ => .error "TypeError: day is not an object"

/-- The `for day in data.get('days', [])` loop of deserialize_month:
each entry is parsed in order, stopping at the first failure. -/
def parseDays : List Json → Except String (List ParsedDay)
  | [] => .ok []
  | j :: rest => do
    let d ← parseDay j
    let ds ← parseDays rest
    pure (d :: ds)

/-- calc.deserialize_month, on an already-parsed JSON document.  The
top-level keys are read with `data.get(key, default)`, so absent keys
yield `[]`, `{}`, `{}` and `'1.0'` rather than an error; only the day
entries are validated.  (A non-object top level, or a `days` value one
cannot iterate day dicts from, raises an uncaught
AttributeError/TypeError in Python; both are modelled as errors here
and no theorem below depends on those cases.) -/
def deserialize_month (data : Json) : Except String DeserResult :=
  match data with
  | .obj _ =>
    match data.getD "days" (.arr []) with
    | .arr daysJson => do
      let days ← parseDays daysJson
      pure { days := days
             settings := data.getD "settings" (.obj [])
             summary := data.getD "summary" (.obj [])
             version := data.getD "version" (.str "1.0") }
    | _ => .error "TypeError: days is not a list"
  | _ => .error "AttributeError: document is not an object"

/-! ### Day record store (db.py), modelled over an explicit row table -/

/-- A row of the `days` table (the status column is what the claims
touch; the other columns ride along unchanged in every modelled
operation). -/
structure DayRow where
  user_id : String
  date : PyDate
  status : String
deriving DecidableEq, Repr

/-- The `update ... eq user_id eq date` call inside db.upsert_day:
returns the new table and the list of affected rows
(`result.data`). -/
def updateDayRows (db : List DayRow) (owner : String) (d : PyDate) (status : String) :
    List DayRow × List DayRow :=
  (db.map (fun r => if r.user_id = owner ∧ r.date = d then { r with status := status } else r),
   (db.filter (fun r => r.user_id = owner ∧ r.date = d)).map
     (fun r => { r with status := status }))

/-- The `insert` call inside db.upsert_day. -/
def insertDayRow (db : List DayRow) (row : DayRow) : List DayRow :=
  db ++ [row]

/-- db.upsert_day run in isolation: update, and insert only if the
update affected no row (`if not result.data`). -/
def upsert_day (db : List DayRow) (owner : String) (d : PyDate) (status : String) :
    List DayRow :=
  let (db1, affected) := updateDayRows db owner d status
  if affected.isEmpty then insertDayRow db1 ⟨owner, d, status⟩ else db1

/-- Two racing invocations of db.upsert_day for the same (owner, date),
interleaved as: A's update, B's update, A's conditional insert, B's
conditional insert.  Each invocation performs its own two storage calls
in program order, so this is a legal schedule of the two concurrent
calls. -/
def upsertDayRace (db : List DayRow) (owner : String) (d : PyDate) (sA sB : String) :
    List DayRow :=
  let (db1, affectedA) := updateDayRows db owner d sA
  let (db2, affectedB) := updateDayRows db1 owner d sB
  let db3 := if affectedA.isEmpty then insertDayRow db2 ⟨owner, d, sA⟩ else db2
  if affectedB.isEmpty then insertDayRow db3 ⟨owner, d, sB⟩ else db3

/-- The rows a table holds for one (owner, date). -/
def rowsFor (db : List DayRow) (owner : String) (d : PyDate) : List DayRow :=
  db.filter (fun r => r.user_id = owner ∧ r.date = d)

/-- db.bulk_set_vacation: one storage update setting status=VACATION on
every row of the owner whose date is within [start_date, end_date]
inclusive (the stored ISO date strings compare lexicographically, which
for four-digit years is chronological order, i.e. ordinal order). -/
def bulk_set_vacation (db : List DayRow) (owner : String)
    (start_date end_date : PyDate) : List DayRow :=
  db.map (fun r =>
    if r.user_id = owner ∧ toOrdinal start_date ≤ toOrdinal r.date ∧
        toOrdinal r.date ≤ toOrdinal end_date
    then { r with status := "VACATION" } else r)

/-- The vacation-range request flow (app.py, "Set Vacation Range"):
the range is validated with calc.validate_date_range and
db.bulk_set_vacation runs only when validation passes.  Returns whether
the request was accepted and the resulting table. -/
def bulkSetVacationRequest (db : List DayRow) (owner : String)
    (start_date end_date : PyDate) : Bool × List DayRow :=
  if validate_date_range start_date end_date then
    (true, bulk_set_vacation db owner start_date end_date)
  else
    (false, db)

/-- Expected remaining fields of an imported day entry that was
produced by `serializeDay` (everything but the consumed `date`). -/
def parsedFields (day : DayRecord) : List (String × Json) :=
  [("status", .str day.status), ("is_holiday", .bool day.is_holiday),
   ("holiday_name", .str day.holiday_name), ("notes", .str day.notes)]

/-- The 21 weekday dates of March 2024, as NONE-status records: a
month whose summary denominator is exactly 21. -/
def march2024Records : List DayRecord :=
  [1, 4, 5, 6, 7, 8, 11, 12, 13, 14, 15, 18, 19, 20, 21, 22, 25, 26, 27, 28, 29].map
    (fun k => ⟨⟨2024, 3, k⟩, "NONE", false, "", ""⟩)

/-! ## Supporting lemmas -/

theorem summaryLoop_append (days : List DayRecord) (d : DayRecord) (s : Settings) :
    summaryLoop (days ++ [d]) s = summaryStep s (summaryLoop days s) d := by
  unfold summaryLoop
  rw [List.foldl_append]
  rfl

theorem summaryStep_numerator (s : Settings) (st : LoopState) (d : DayRecord) :
    (summaryStep s st d).numerator = st.numerator + dayContrib s d := by
  unfold summaryStep dayContrib
  split_ifs <;> simp_all

theorem summaryStep_workdays (s : Settings) (st : LoopState) (d : DayRecord) :
    (summaryStep s st d).workdays =
      st.workdays + (if weekdayNum d.date < 5 then 1 else 0) := by
  unfold summaryStep
  split_ifs <;> simp_all

theorem summaryStep_credited (s : Settings) (st : LoopState) (d : DayRecord) :
    (summaryStep s st d).credited_holidays =
      st.credited_holidays +
        (if weekdayNum d.date < 5 ∧ (d.is_holiday && credited_holiday d.date s) = true
         then 1 else 0) := by
  unfold summaryStep
  split_ifs <;> simp_all

theorem foldl_summaryStep_numerator (s : Settings) (days : List DayRecord) (st : LoopState) :
    (days.foldl (summaryStep s) st).numerator =
      st.numerator + (days.map (dayContrib s)).sum := by
  induction days generalizing st with
  | nil => simp
  | cons d rest ih =>
    rw [List.foldl_cons, ih, summaryStep_numerator]
    simp [Nat.add_assoc]

theorem foldl_summaryStep_workdays (s : Settings) (days : List DayRecord) (st : LoopState) :
    (days.foldl (summaryStep s) st).workdays =
      st.workdays + (days.map (fun d => if weekdayNum d.date < 5 then 1 else 0)).sum := by
  induction days generalizing st with
  | nil => simp
  | cons d rest ih =>
    rw [List.foldl_cons, ih, summaryStep_workdays]
    simp [Nat.add_assoc]

theorem summaryLoop_numerator (days : List DayRecord) (s : Settings) :
    (summaryLoop days s).numerator = (days.map (dayContrib s)).sum := by
  unfold summaryLoop
  rw [foldl_summaryStep_numerator]
  exact Nat.zero_add _

theorem summaryLoop_workdays (days : List DayRecord) (s : Settings) :
    (summaryLoop days s).workdays =
      (days.map (fun d => if weekdayNum d.date < 5 then 1 else 0)).sum := by
  unfold summaryLoop
  rw [foldl_summaryStep_workdays]
  exact Nat.zero_add _

theorem compute_summary_numerator (days : List DayRecord) (s : Settings) :
    (compute_summary days s).numerator = (summaryLoop days s).numerator := by
  by_cases h : 0 < (summaryLoop days s).workdays <;> simp [compute_summary, h]

theorem compute_summary_credited (days : List DayRecord) (s : Settings) :
    (compute_summary days s).credited_holidays = (summaryLoop days s).credited_holidays := by
  by_cases h : 0 < (summaryLoop days s).workdays <;> simp [compute_summary, h]

theorem compute_summary_denominator (days : List DayRecord) (s : Settings) :
    (compute_summary days s).denominator = (summaryLoop days s).workdays := by
  by_cases h : 0 < (summaryLoop days s).workdays <;> simp [compute_summary, h]

/-! ## Claims -/

/-- Claim C1: a weekday record whose status counts as office and which is
also a credited holiday adds exactly 1 (never 2) to the numerator, and
still increments credited_holidays by 1 even though the status branch
alone already granted the credit. -/
theorem claim1_weekday_status_and_credited_holiday
    (days : List DayRecord) (s : Settings) (d : DayRecord)
    (hw : weekdayNum d.date < 5)
    (_hs : COUNTS_AS_OFFICE.contains d.status = true)
    (hh : d.is_holiday = true)
    (hc : credited_holiday d.date s = true) :
    (compute_summary (days ++ [d]) s).numerator = (compute_summary days s).numerator + 1 ∧
    (compute_summary (days ++ [d]) s).credited_holidays =
      (compute_summary days s).credited_holidays + 1 := by
  rw [compute_summary_numerator, compute_summary_numerator,
    compute_summary_credited, compute_summary_credited, summaryLoop_append,
    summaryStep_numerator, summaryStep_credited]
  constructor
  · unfold dayContrib
    rw [if_pos hw, hh, hc]
    rfl
  · rw [if_pos ⟨hw, by rw [hh, hc]; rfl⟩]

/-- Witness for C1: Tuesday 2024-03-05 with status IN_OFFICE and a
credited holiday under default settings. -/
theorem claim1_witness :
    (compute_summary ([] ++ [⟨⟨2024, 3, 5⟩, "IN_OFFICE", true, "", ""⟩]) {}).numerator =
      (compute_summary [] {}).numerator + 1 ∧
    (compute_summary ([] ++ [⟨⟨2024, 3, 5⟩, "IN_OFFICE", true, "", ""⟩]) {}).credited_holidays =
      (compute_summary [] {}).credited_holidays + 1 :=
  claim1_weekday_status_and_credited_holiday [] {}
    ⟨⟨2024, 3, 5⟩, "IN_OFFICE", true, "", ""⟩
    (by decide) (by decide) rfl (by decide)

/-- Claim C2 counterexample: with required_percent = 0 and one attended
weekday (Monday 2024-03-04, IN_OFFICE), percent_achieved is 100, not 0,
refuting the claim that required_percent = 0 forces
percent_achieved = 0. -/
theorem claim2_counterexample :
    ({ required_percent := 0 : Settings }).required_percent = 0 ∧
    (compute_summary [⟨⟨2024, 3, 4⟩, "IN_OFFICE", false, "", ""⟩]
        { required_percent := 0 }).percent_achieved = 100 ∧
    ((100 : ℚ) = 0 → False) := by
  refine ⟨rfl, ?_, by norm_num⟩
  have h : summaryLoop [⟨⟨2024, 3, 4⟩, "IN_OFFICE", false, "", ""⟩]
      { required_percent := 0 } = ⟨1, 1, [("IN_OFFICE", 1)], 0⟩ := by decide
  norm_num [compute_summary, h]

/-- Claim C2 amended: if required_percent = 0 or the denominator is 0 then
required_days = 0, and if the denominator is 0 then percent_achieved is
0 as well (the division is only performed when the denominator is
positive); percent_achieved with required_percent = 0 but a positive
denominator is numerator/denominator×100, not 0. -/
theorem claim2_zero_percent_or_denominator
    (days : List DayRecord) (s : Settings)
    (h : s.required_percent = 0 ∨ (compute_summary days s).denominator = 0) :
    (compute_summary days s).required_days = 0 ∧
    ((compute_summary days s).denominator = 0 →
      (compute_summary days s).percent_achieved = 0) := by
  unfold compute_summary at *
  by_cases hpos : 0 < (summaryLoop days s).workdays
  · rw [if_pos hpos] at h ⊢
    have hrp : s.required_percent = 0 := by
      rcases h with h | h
      · exact h
      · simp at h
        omega
    constructor
    · rw [hrp]
      simp only [zero_mul]
      split_ifs <;> norm_num [roundHalfUp]
    · intro hden
      simp at hden
      omega
  · rw [if_neg hpos] at h ⊢
    exact ⟨rfl, fun _ => rfl⟩

/-- Witness for C2: the empty month has denominator 0, so required_days
and percent_achieved are both 0. -/
theorem claim2_witness :
    (compute_summary [] {}).required_days = 0 ∧
    ((compute_summary [] {}).denominator = 0 →
      (compute_summary [] {}).percent_achieved = 0) :=
  claim2_zero_percent_or_denominator [] {} (Or.inr rfl)


theorem compute_summary_denom_zero (days : List DayRecord) (s : Settings)
    (h : (summaryLoop days s).workdays = 0) :
    (compute_summary days s).required_days = 0 ∧
    (compute_summary days s).percent_achieved = 0 ∧
    (compute_summary days s).balance = ((compute_summary days s).numerator : Int) := by
  simp [compute_summary, h]

theorem march2024_workdays (s : Settings) :
    (summaryLoop march2024Records s).workdays = 21 := by
  rw [summaryLoop_workdays]
  decide

/-- Claim C3: with required_percent = 0.60 and 21 weekday records
(denominator 21, exact value 12.6), required_days is 13 under ceil, 12
under floor and 13 under round_half_up. -/
theorem claim3_rounding_modes_march2024 :
    (compute_summary march2024Records { rounding_mode := "ceil" }).denominator = 21 ∧
    (compute_summary march2024Records { rounding_mode := "ceil" }).required_days = 13 ∧
    (compute_summary march2024Records { rounding_mode := "floor" }).required_days = 12 ∧
    (compute_summary march2024Records { rounding_mode := "round_half_up" }).required_days = 13 := by
  refine ⟨?_, ?_, ?_, ?_⟩
  · rw [compute_summary_denominator, march2024_workdays]
  · simp [compute_summary, march2024_workdays]
    rw [show ((3 : ℚ)/5 * 21) = 63/5 by norm_num, Int.ceil_eq_iff]
    norm_num
  · simp [compute_summary, march2024_workdays]
    rw [show ((3 : ℚ)/5 * 21) = 63/5 by norm_num, Int.floor_eq_iff]
    norm_num
  · simp [compute_summary, march2024_workdays]
    rw [roundHalfUp, if_pos (by norm_num),
      show ((3 : ℚ)/5 * 21 + 1/2) = 131/10 by norm_num,
      Int.floor_eq_iff]
    norm_num

/-- Claim C4: a weekend record is credited 1 iff its status counts as office
(its is_holiday flag being irrelevant: the holiday branch never runs on
weekends), and a record with status WFH or NONE is credited only by the
weekday holiday branch — the status itself never grants credit on any
day of the week. -/
theorem claim4_weekend_credit_and_wfh_none
    (days : List DayRecord) (s : Settings) (d : DayRecord) :
    (5 ≤ weekdayNum d.date →
      (compute_summary (days ++ [d]) s).numerator =
        (compute_summary days s).numerator +
          (if COUNTS_AS_OFFICE.contains d.status then 1 else 0)) ∧
    (d.status = "WFH" ∨ d.status = "NONE" →
      (compute_summary (days ++ [d]) s).numerator =
        (compute_summary days s).numerator +
          (if weekdayNum d.date < 5 ∧ d.is_holiday = true ∧
              credited_holiday d.date s = true
           then 1 else 0)) := by
  rw [compute_summary_numerator, compute_summary_numerator, summaryLoop_append,
    summaryStep_numerator]
  constructor
  · intro hwe
    unfold dayContrib
    rw [if_neg (by omega)]
  · intro hst
    have hc : COUNTS_AS_OFFICE.contains d.status = false := by
      rcases hst with h | h <;> rw [h] <;> decide
    unfold dayContrib
    rw [hc]
    by_cases hw : weekdayNum d.date < 5
    · rw [if_pos hw]
      by_cases hb : (d.is_holiday && credited_holiday d.date s) = true
      · rw [Bool.and_eq_true] at hb
        rw [if_pos (by rw [hb.1, hb.2]; rfl), if_pos ⟨hw, hb.1, hb.2⟩]
      · have hnot : ¬ (weekdayNum d.date < 5 ∧ d.is_holiday = true ∧
            credited_holiday d.date s = true) := by
          rintro ⟨-, h1, h2⟩
          exact hb (by rw [h1, h2]; rfl)
        rw [if_neg hb, if_neg hnot]
        simp
    · rw [if_neg hw]
      simp [hw]

/-- Witness for C4: a Saturday IN_OFFICE holiday record and a Monday
WFH record. -/
theorem claim4_witness :
    (compute_summary ([] ++ [⟨⟨2024, 3, 2⟩, "IN_OFFICE", true, "", ""⟩]) {}).numerator =
      (compute_summary [] {}).numerator +
        (if COUNTS_AS_OFFICE.contains "IN_OFFICE" then 1 else 0) ∧
    (compute_summary ([] ++ [⟨⟨2024, 3, 4⟩, "WFH", false, "", ""⟩]) {}).numerator =
      (compute_summary [] {}).numerator +
        (if weekdayNum (⟨2024, 3, 4⟩ : PyDate) < 5 ∧ false = true ∧
            credited_holiday ⟨2024, 3, 4⟩ {} = true
         then 1 else 0) :=
  ⟨(claim4_weekend_credit_and_wfh_none [] {} ⟨⟨2024, 3, 2⟩, "IN_OFFICE", true, "", ""⟩).1
      (by decide),
   (claim4_weekend_credit_and_wfh_none [] {} ⟨⟨2024, 3, 4⟩, "WFH", false, "", ""⟩).2
      (Or.inl rfl)⟩

/-- Claim C5 counterexample: a settings value whose credit_weekdays contains
MON makes credited_holiday true for Monday 2024-03-04 although
monfri_holiday_treatment is "neutral", refuting the claim for *every*
settings value. -/
theorem claim5_counterexample :
    ¬ ((credited_holiday ⟨2024, 3, 4⟩ { credit_weekdays := ["MON"] } = true) ↔
        ({ credit_weekdays := ["MON"] : Settings }).monfri_holiday_treatment = "credit") := by
  decide

/-- Claim C5 amended: for every settings value whose credit_weekdays set does
not contain MON (in particular the default {TUE, WED, THU}), a Monday
is a credited holiday iff monfri_holiday_treatment = "credit";
credit_weekdays is consulted first and wins when it contains MON. -/
theorem claim5_monday_iff_credit_treatment
    (s : Settings) (d : PyDate)
    (hmon : weekdayNum d = 0)
    (hnm : s.credit_weekdays.contains "MON" = false) :
    credited_holiday d s = true ↔ s.monfri_holiday_treatment = "credit" := by
  have htok : weekdayToken d = "MON" := by unfold weekdayToken; rw [hmon]
  simp only [credited_holiday, htok, hnm]
  simp [beq_iff_eq]

/-- Witness for C5: Monday 2024-03-04 under default settings. -/
theorem claim5_witness :
    (credited_holiday ⟨2024, 3, 4⟩ {} = true ↔
      ({} : Settings).monfri_holiday_treatment = "credit") :=
  claim5_monday_iff_credit_treatment {} ⟨2024, 3, 4⟩ (by decide) (by decide)

/-- Claim C10: a non-empty all-weekend month with at least one office-like
status yields denominator 0, required_days 0 and percent_achieved 0
while the numerator is strictly positive and the balance equals the
numerator: a positive surplus reported together with 0% achievement. -/
theorem claim10_weekend_only_surplus
    (days : List DayRecord) (s : Settings)
    (hwe : ∀ d ∈ days, 5 ≤ weekdayNum d.date)
    (hex : ∃ d ∈ days, COUNTS_AS_OFFICE.contains d.status = true) :
    (compute_summary days s).denominator = 0 ∧
    (compute_summary days s).required_days = 0 ∧
    (compute_summary days s).percent_achieved = 0 ∧
    0 < (compute_summary days s).numerator ∧
    (compute_summary days s).balance = ((compute_summary days s).numerator : Int) := by
  have hw0 : (summaryLoop days s).workdays = 0 := by
    rw [summaryLoop_workdays]
    apply List.sum_eq_zero
    intro x hx
    obtain ⟨d, hd, rfl⟩ := List.mem_map.mp hx
    rw [if_neg]
    have := hwe d hd
    omega
  obtain ⟨hreq, hpct, hbal⟩ := compute_summary_denom_zero days s hw0
  refine ⟨?_, hreq, hpct, ?_, hbal⟩
  · rw [compute_summary_denominator, hw0]
  · rw [compute_summary_numerator, summaryLoop_numerator]
    obtain ⟨d, hd, hs'⟩ := hex
    have h1 : dayContrib s d = 1 := by
      unfold dayContrib
      rw [if_neg (by have := hwe d hd; omega), hs']
      simp
    have hmem : (1 : Nat) ∈ days.map (dayContrib s) := h1 ▸ List.mem_map_of_mem _ hd
    exact Nat.lt_of_lt_of_le Nat.one_pos (List.single_le_sum (fun _ _ => Nat.zero_le _) _ hmem)

/-- Witness for C10: a single Saturday IN_OFFICE record. -/
theorem claim10_witness :
    (compute_summary [⟨⟨2024, 3, 2⟩, "IN_OFFICE", false, "", ""⟩] {}).denominator = 0 ∧
    (compute_summary [⟨⟨2024, 3, 2⟩, "IN_OFFICE", false, "", ""⟩] {}).required_days = 0 ∧
    (compute_summary [⟨⟨2024, 3, 2⟩, "IN_OFFICE", false, "", ""⟩] {}).percent_achieved = 0 ∧
    0 < (compute_summary [⟨⟨2024, 3, 2⟩, "IN_OFFICE", false, "", ""⟩] {}).numerator ∧
    (compute_summary [⟨⟨2024, 3, 2⟩, "IN_OFFICE", false, "", ""⟩] {}).balance =
      ((compute_summary [⟨⟨2024, 3, 2⟩, "IN_OFFICE", false, "", ""⟩] {}).numerator : Int) :=
  claim10_weekend_only_surplus [⟨⟨2024, 3, 2⟩, "IN_OFFICE", false, "", ""⟩] {}
    (by decide) (by decide)


theorem digitVal_digitChar0 (k : Nat) (h : k < 10) : digitVal (digitChar0 k) = some k := by
  interval_cases k <;> rfl

theorem digitVal_digitChar (n : Nat) : digitVal (digitChar n) = some (n % 10) :=
  digitVal_digitChar0 (n % 10) (Nat.mod_lt n (by omega))

theorem fromisoformat_isoformat (d : PyDate) (h : ValidDate d) :
    fromisoformat (isoformat d) = some d := by
  obtain ⟨hy1, hy2, hm1, hm2, hd1, hd2⟩ := h
  have hdm : d.day ≤ 31 := by
    have : daysInMonth d.year d.month ≤ 31 := by
      unfold daysInMonth
      split_ifs <;> simp
    omega
  unfold fromisoformat isoformat pad4 pad2
  simp only [List.cons_append, List.nil_append, String.data]
  simp only [and_self, if_true]
  simp only [digitVal_digitChar, Option.bind_eq_bind, Option.some_bind]
  have hy : 1000 * (d.year / 1000 % 10) + 100 * (d.year / 100 % 10) +
      10 * (d.year / 10 % 10) + d.year % 10 = d.year := by omega
  have hm : 10 * (d.month / 10 % 10) + d.month % 10 = d.month := by omega
  have hd : 10 * (d.day / 10 % 10) + d.day % 10 = d.day := by omega
  simp only [hy, hm, hd]
  have hval : ValidDate ⟨d.year, d.month, d.day⟩ := ⟨hy1, hy2, hm1, hm2, hd1, hd2⟩
  rw [if_pos hval]

theorem parseDay_serializeDay (day : DayRecord) (h : ValidDate day.date) :
    parseDay (serializeDay day) = .ok ⟨day.date, parsedFields day⟩ := by
  unfold parseDay serializeDay parsedFields
  simp [List.lookup, fromisoformat_isoformat day.date h, List.filter]

theorem parseDays_map (days : List DayRecord) (h : ∀ d ∈ days, ValidDate d.date) :
    parseDays (days.map serializeDay) =
      .ok (days.map (fun d => ⟨d.date, parsedFields d⟩)) := by
  induction days with
  | nil => rfl
  | cons a t ih =>
    simp only [List.map_cons]
    unfold parseDays
    rw [parseDay_serializeDay a (h a (by simp)), ih (fun d hd => h d (by simp [hd]))]
    rfl

/-- Claim C6: deserializing a serialized month succeeds and reproduces the
same dates (in order, hence the same set), the same status per date and
the same notes per date; `holiday_name` absent vs empty is already
identified by the serializer's `day.get('holiday_name', '')`. -/
theorem claim6_roundtrip (days : List DayRecord) (settings : Settings) (summary : Json)
    (h : ∀ d ∈ days, ValidDate d.date) :
    ∃ r, deserialize_month (serialize_month days settings summary) = .ok r ∧
      r.days.map (fun p => p.date) = days.map (fun d => d.date) ∧
      r.days.map (fun p => p.fields.lookup "status") =
        days.map (fun d => some (.str d.status)) ∧
      r.days.map (fun p => p.fields.lookup "notes") =
        days.map (fun d => some (.str d.notes)) := by
  have hstep : deserialize_month (serialize_month days settings summary) =
      (do
        let ds ← parseDays (days.map serializeDay)
        pure (⟨ds, serializeSettings settings, summary, .str "1.2"⟩ : DeserResult)) := rfl
  refine ⟨⟨days.map (fun d => ⟨d.date, parsedFields d⟩),
      serializeSettings settings, summary, .str "1.2"⟩, ?_, ?_, ?_, ?_⟩
  · rw [hstep, parseDays_map days h]
    rfl
  · rw [List.map_map]
    exact List.map_congr_left (fun d _ => rfl)
  · rw [List.map_map]
    exact List.map_congr_left (fun d _ => rfl)
  · rw [List.map_map]
    exact List.map_congr_left (fun d _ => rfl)

/-- Witness for C6: a one-day month with notes, default settings and a
null summary. -/
theorem claim6_witness :
    ∃ r, deserialize_month (serialize_month [⟨⟨2024, 3, 4⟩, "WFH", false, "", "hello"⟩]
        {} .null) = .ok r ∧
      r.days.map (fun p => p.date) =
        ([⟨⟨2024, 3, 4⟩, "WFH", false, "", "hello"⟩] : List DayRecord).map
          (fun d => d.date) ∧
      r.days.map (fun p => p.fields.lookup "status") =
        ([⟨⟨2024, 3, 4⟩, "WFH", false, "", "hello"⟩] : List DayRecord).map
          (fun d => some (.str d.status)) ∧
      r.days.map (fun p => p.fields.lookup "notes") =
        ([⟨⟨2024, 3, 4⟩, "WFH", false, "", "hello"⟩] : List DayRecord).map
          (fun d => some (.str d.notes)) :=
  claim6_roundtrip [⟨⟨2024, 3, 4⟩, "WFH", false, "", "hello"⟩] {} .null (by decide)

/-- Claim C7 counterexample: the empty JSON object is missing every required
top-level key (version, days, settings, summary), yet deserialize_month
succeeds with the `data.get` defaults instead of raising a format
error. -/
theorem claim7_counterexample :
    deserialize_month (Json.obj []) =
      .ok ⟨[], Json.obj [], Json.obj [], Json.str "1.0"⟩ := rfl

theorem parseDays_ok_iff (l : List Json) :
    (∃ ds, parseDays l = .ok ds) ↔ ∀ j ∈ l, ∃ p, parseDay j = .ok p := by
  induction l with
  | nil => simp [parseDays]
  | cons j rest ih =>
    constructor
    · rintro ⟨ds, hds⟩
      unfold parseDays at hds
      cases hpj : parseDay j with
      | error e => rw [hpj] at hds; exact absurd hds (by simp [Bind.bind, Except.bind])
      | ok p =>
        cases hrest : parseDays rest with
        | error e =>
          rw [hpj, hrest] at hds
          exact absurd hds (by simp [Bind.bind, Except.bind])
        | ok ds2 =>
          intro j2 hj2
          rcases List.mem_cons.mp hj2 with hj2 | hj2
          · exact ⟨p, hj2 ▸ hpj⟩
          · exact ih.mp ⟨ds2, hrest⟩ j2 hj2
    · intro hall
      obtain ⟨p, hp⟩ := hall j (by simp)
      obtain ⟨ds, hds⟩ := ih.mpr (fun j2 hj2 => hall j2 (by simp [hj2]))
      refine ⟨p :: ds, ?_⟩
      unfold parseDays
      rw [hp, hds]
      rfl

/-- Claim C7 amended: deserialize_month (on a parsed JSON object) raises its
format error exactly when some entry of the days list fails to parse —
a missing `date` key or an unparsable date string (a non-object entry
or non-string date, an uncaught TypeError in Python, is folded into the
failure side); missing top-level keys never raise: `days`, `settings`,
`summary` and `version` default to `[]`, `{}`, `{}` and `"1.0"`, and a
day entry's missing `status` field is not checked at all.  The model is
a pure function, so failure applies no mutation. -/
theorem claim7_deserialize_errors (fields : List (String × Json)) (daysList : List Json)
    (hd : (Json.obj fields).getD "days" (Json.arr []) = Json.arr daysList) :
    ((∃ r, deserialize_month (Json.obj fields) = .ok r) ↔
      ∀ j ∈ daysList, ∃ p, parseDay j = .ok p) ∧
    ∀ r, deserialize_month (Json.obj fields) = .ok r →
      r.settings = (Json.obj fields).getD "settings" (Json.obj []) ∧
      r.summary = (Json.obj fields).getD "summary" (Json.obj []) ∧
      r.version = (Json.obj fields).getD "version" (Json.str "1.0") := by
  have hstep : deserialize_month (Json.obj fields) =
      (do
        let ds ← parseDays daysList
        pure (⟨ds, (Json.obj fields).getD "settings" (Json.obj []),
          (Json.obj fields).getD "summary" (Json.obj []),
          (Json.obj fields).getD "version" (Json.str "1.0")⟩ : DeserResult)) := by
    unfold deserialize_month
    rw [hd]
  constructor
  · rw [← parseDays_ok_iff]
    constructor
    · rintro ⟨r, hr⟩
      rw [hstep] at hr
      cases hpd : parseDays daysList with
      | error e => rw [hpd] at hr; exact absurd hr (by simp [Bind.bind, Except.bind])
      | ok ds => exact ⟨ds, rfl⟩
    · rintro ⟨ds, hds⟩
      rw [hstep, hds]
      exact ⟨_, rfl⟩
  · intro r hr
    rw [hstep] at hr
    cases hpd : parseDays daysList with
    | error e => rw [hpd] at hr; exact absurd hr (by simp [Bind.bind, Except.bind])
    | ok ds =>
      rw [hpd] at hr
      cases hr
      exact ⟨rfl, rfl, rfl⟩

/-- Witness for C7: a document carrying one well-formed day entry and
no other keys parses successfully; its components are the defaults. -/
theorem claim7_witness :
    ((∃ r, deserialize_month (Json.obj
        [("days", Json.arr [Json.obj [("date", Json.str "2024-03-04")]])]) = .ok r) ↔
      ∀ j ∈ [Json.obj [("date", Json.str "2024-03-04")]], ∃ p, parseDay j = .ok p) ∧
    ∀ r, deserialize_month (Json.obj
        [("days", Json.arr [Json.obj [("date", Json.str "2024-03-04")]])]) = .ok r →
      r.settings = (Json.obj
        [("days", Json.arr [Json.obj [("date", Json.str "2024-03-04")]])]).getD
          "settings" (Json.obj []) ∧
      r.summary = (Json.obj
        [("days", Json.arr [Json.obj [("date", Json.str "2024-03-04")]])]).getD
          "summary" (Json.obj []) ∧
      r.version = (Json.obj
        [("days", Json.arr [Json.obj [("date", Json.str "2024-03-04")]])]).getD
          "version" (Json.str "1.0") :=
  claim7_deserialize_errors [("days", Json.arr [Json.obj [("date", Json.str "2024-03-04")]])]
    [Json.obj [("date", Json.str "2024-03-04")]] rfl

/-- Claim C8: the vacation-range request is rejected, leaving the table
untouched, exactly when start > end or the span exceeds 365 days;
otherwise it is accepted and sets status=VACATION on precisely the
owner's existing records with dates in [start, end] inclusive (weekends
included), leaves every other record unchanged, and creates no new
records (the length is preserved and the result is the pointwise image
of the input). -/
theorem claim8_bulk_vacation (db : List DayRow) (owner : String) (s e : PyDate) :
    (validate_date_range s e = false ↔
      toOrdinal e < toOrdinal s ∨ 365 < toOrdinal e - toOrdinal s) ∧
    (validate_date_range s e = false → bulkSetVacationRequest db owner s e = (false, db)) ∧
    (validate_date_range s e = true →
      (bulkSetVacationRequest db owner s e).1 = true ∧
      (bulkSetVacationRequest db owner s e).2.length = db.length ∧
      ∀ i : Nat, ((bulkSetVacationRequest db owner s e).2)[i]? =
        (db[i]?).map (fun r =>
          if r.user_id = owner ∧ toOrdinal s ≤ toOrdinal r.date ∧
              toOrdinal r.date ≤ toOrdinal e
          then { r with status := "VACATION" } else r)) := by
  refine ⟨?_, ?_, ?_⟩
  · unfold validate_date_range
    split_ifs with h1 h2
    · simp
      omega
    · simp
      omega
    · simp
      omega
  · intro h
    simp [bulkSetVacationRequest, h]
  · intro h
    unfold bulkSetVacationRequest
    rw [h]
    refine ⟨rfl, ?_, ?_⟩
    · simp [bulk_set_vacation]
    · intro i
      simp [bulk_set_vacation, List.getElem?_map]

/-- Witness for C8: a weekend-spanning range 2024-03-02..2024-03-10 is
accepted, and a reversed range is rejected without mutation. -/
theorem claim8_witness :
    (bulkSetVacationRequest
      [⟨"rachel", ⟨2024, 3, 1⟩, "NONE"⟩, ⟨"rachel", ⟨2024, 3, 2⟩, "NONE"⟩,
       ⟨"rachel", ⟨2024, 3, 4⟩, "WFH"⟩, ⟨"rachel", ⟨2024, 3, 11⟩, "WFH"⟩]
      "rachel" ⟨2024, 3, 2⟩ ⟨2024, 3, 10⟩).1 = true ∧
    bulkSetVacationRequest
      [⟨"rachel", ⟨2024, 3, 1⟩, "NONE"⟩, ⟨"rachel", ⟨2024, 3, 2⟩, "NONE"⟩,
       ⟨"rachel", ⟨2024, 3, 4⟩, "WFH"⟩, ⟨"rachel", ⟨2024, 3, 11⟩, "WFH"⟩]
      "rachel" ⟨2024, 3, 10⟩ ⟨2024, 3, 2⟩ =
      (false,
       [⟨"rachel", ⟨2024, 3, 1⟩, "NONE"⟩, ⟨"rachel", ⟨2024, 3, 2⟩, "NONE"⟩,
        ⟨"rachel", ⟨2024, 3, 4⟩, "WFH"⟩, ⟨"rachel", ⟨2024, 3, 11⟩, "WFH"⟩]) :=
  ⟨((claim8_bulk_vacation
      [⟨"rachel", ⟨2024, 3, 1⟩, "NONE"⟩, ⟨"rachel", ⟨2024, 3, 2⟩, "NONE"⟩,
       ⟨"rachel", ⟨2024, 3, 4⟩, "WFH"⟩, ⟨"rachel", ⟨2024, 3, 11⟩, "WFH"⟩]
      "rachel" ⟨2024, 3, 2⟩ ⟨2024, 3, 10⟩).2.2 (by decide)).1,
   (claim8_bulk_vacation
      [⟨"rachel", ⟨2024, 3, 1⟩, "NONE"⟩, ⟨"rachel", ⟨2024, 3, 2⟩, "NONE"⟩,
       ⟨"rachel", ⟨2024, 3, 4⟩, "WFH"⟩, ⟨"rachel", ⟨2024, 3, 11⟩, "WFH"⟩]
      "rachel" ⟨2024, 3, 10⟩ ⟨2024, 3, 2⟩).2.1 (by decide)⟩

/-- Claim C9: db.upsert_day is an update-then-insert sequence, not an atomic
upsert.  In the interleaving update(A), update(B), insert(A), insert(B)
of two racing invocations for the same (owner, date) — each invocation
running its own two storage calls in program order against an initially
empty table — both updates affect zero rows, so both callers insert and
the table ends with TWO records for (rachel, 2024-03-04), violating the
at-most-one-record invariant the claim states.  Run in isolation the
same call leaves exactly one record. -/
theorem claim9_upsert_race_duplicates :
    rowsFor (upsertDayRace [] "rachel" ⟨2024, 3, 4⟩ "IN_OFFICE" "WFH") "rachel" ⟨2024, 3, 4⟩ =
      [⟨"rachel", ⟨2024, 3, 4⟩, "IN_OFFICE"⟩, ⟨"rachel", ⟨2024, 3, 4⟩, "WFH"⟩] ∧
    (rowsFor (upsertDayRace [] "rachel" ⟨2024, 3, 4⟩ "IN_OFFICE" "WFH") "rachel"
        ⟨2024, 3, 4⟩).length = 2 ∧
    upsert_day [] "rachel" ⟨2024, 3, 4⟩ "IN_OFFICE" =
      [⟨"rachel", ⟨2024, 3, 4⟩, "IN_OFFICE"⟩] :=
  ⟨rfl, rfl, rfl⟩

end OfficeTracker
